import Mathlib

/-
  Verification of the summarization HTTP service (src/backend/app.py).

  The service exposes a health endpoint and a POST /api/summarize endpoint.
  We embed the request handler, the lazy model initializer and the error
  handlers as pure Lean functions.  The global mutable `summarizer` variable
  is modelled by explicit state passing (`Option Model`), and the outcome the
  `pipeline(...)` constructor would have (a handle, or a construction
  failure) is passed in as the `load` argument.  The underlying model call
  either raises (an error detail string) or returns the summary text, so a
  handle is a function into `Except String String`.
-/

namespace AISummarizer

set_option maxRecDepth 100000

/-- JSON scalar values that may occur as a field of the request body.
    (The handler only ever reads scalar fields; nested values are not
    needed by any property considered here.) -/
inductive Json where
  | str (s : String)
  | int (n : Int)
  | bool (b : Bool)
  | null
deriving DecidableEq, Repr

/-- JSON values produced by `jsonify` in response bodies (the success body
    nests an object under the key "parameters"). -/
inductive JVal where
  | str (s : String)
  | int (n : Int)
  | bool (b : Bool)
  | null
  | obj (fields : List (String × JVal))
deriving Repr

/-- An HTTP response: status code and JSON object body (ordered key/value list,
    as produced by `jsonify({...})`). -/
structure Response where
  status : Nat
  body : List (String × JVal)
deriving Repr

/-- First value bound to key `k` in a JSON object body, if any. -/
def lookupKey (k : String) : List (String × JVal) → Option JVal
  | [] => none
  | (k2, v) :: rest => if k2 = k then some v else lookupKey k rest

/-- Whether key `k` occurs in a JSON object body. -/
def hasKey (k : String) (l : List (String × JVal)) : Bool :=
  (lookupKey k l).isSome

/-- Python `str()` applied to a JSON scalar (app.py line 69/74 uses
    `str(data["text"])`). -/
def pyStr : Json → String
  | .str s => s
  | .int n => toString n
  | .bool true => "True"
  | .bool false => "False"
  | .null => "None"

/-- Drop leading whitespace characters. -/
def dropWs : List Char → List Char
  | [] => []
  | c :: rest => if c.isWhitespace then dropWs rest else c :: rest

/-- Python `str.strip()` with no argument: remove leading and trailing
    whitespace. -/
def pyTrim (s : String) : String :=
  String.mk (dropWs ((dropWs s.data.reverse).reverse))

/-- Value of a nonempty list of decimal digits, `none` if empty or if any
    character is not a digit. -/
def digitsVal (cs : List Char) : Option Nat :=
  if cs ≠ [] ∧ cs.all Char.isDigit then
    some (cs.foldl (fun a c => a * 10 + (c.toNat - 48)) 0)
  else none

/-- Python `int()` applied to a string: optional surrounding whitespace,
    optional sign, then decimal digits. -/
def pyIntOfString (s : String) : Option Int :=
  match (pyTrim s).data with
  | '+' :: ds => (digitsVal ds).map Int.ofNat
  | '-' :: ds => (digitsVal ds).map (fun n => -(n : Int))
  | ds => (digitsVal ds).map Int.ofNat

/-- Python `int()` applied to a JSON scalar (app.py lines 75-76).  A parse
    failure raises; the `.error` value carries `str(e)` of the raised
    exception, which the outer `except` turns into the 500 body. -/
def pyInt : Json → Except String Int
  | .int n => .ok n
  | .bool b => .ok (if b then 1 else 0)
  | .str s =>
      match pyIntOfString s with
      | some n => .ok n
      | none => .error ("invalid literal for int() with base 10: '" ++ s ++ "'")
  | .null =>
      .error "int() argument must be a string, a bytes-like object or a real number, not 'NoneType'"

/-- Worker for `pySplit`: `acc` holds the characters of the current word in
    reverse order. -/
def pySplitGo : List Char → List Char → List String
  | [], [] => []
  | [], acc => [String.mk acc.reverse]
  | c :: rest, acc =>
    if c.isWhitespace then
      match acc with
      | [] => pySplitGo rest []
      | _ => String.mk acc.reverse :: pySplitGo rest []
    else pySplitGo rest (c :: acc)

/-- Python `text.split()` with no separator: split on runs of whitespace,
    dropping empty pieces. -/
def pySplit (s : String) : List String := pySplitGo s.data []

/-- Word count used by the handler, `len(text.split())` (app.py lines 95, 126). -/
def wordCount (s : String) : Nat := (pySplit s).length

/-- A summarization handle: invoking it either raises (error detail string)
    or returns the summary text.  `do_sample=False` makes the call
    deterministic, so a plain function is a faithful model. -/
def Model : Type := String → Int → Int → Except String String

/-- Lazy initializer `get_summarizer` (app.py lines 21-35).  `st` is the
    current global `summarizer`; `load` is what `pipeline(...)` would yield
    (`none` when construction fails, in which case the handler stores `None`).
    Returns the pair (returned handle, new global state). -/
def get_summarizer (st load : Option Model) : Option Model × Option Model :=
  match st with
  | some m => (some m, some m)
  | none => (load, load)

/-- Readiness test used by the health endpoint, `summarizer is not None`. -/
def isReady (st : Option Model) : Bool := st.isSome

/-- The parsed body of a POST /api/summarize request.  `is_json` models
    `request.is_json`; each field is `none` when the key is absent from the
    JSON object. -/
structure SummarizeRequest where
  is_json : Bool
  text : Option Json
  min_length : Option Json
  max_length : Option Json

/-- Body `{"error": msg}` with the given status. -/
def errorResponse (status : Nat) (msg : String) : Response :=
  ⟨status, [("error", JVal.str msg)]⟩

/-- The catch-all 500 body of the summarize handler (app.py lines 134-139):
    `{"error": <generic>, "details": str(e) if app.debug else None}`. -/
def summarizeFailure (debug : Bool) (detail : String) : Response :=
  ⟨500, [("error", JVal.str "An error occurred during summarization. Please try again."),
         ("details", if debug then JVal.str detail else JVal.null)]⟩

/-- Steps of `summarize_text` after both length parameters parsed as
    integers (app.py lines 78-132): range checks, ordering check, word-count
    and character-count checks, lazy model load, invocation, and response
    shaping.  `text` is the trimmed coerced text. -/
def summarize_validated (debug : Bool) (st load : Option Model) (text : String)
    (mn mx : Int) : Response × Option Model :=
  if mn < 10 ∨ mn > 200 then
    (errorResponse 400 "min_length must be between 10 and 200", st)
  else if mx < 20 ∨ mx > 500 then
    (errorResponse 400 "max_length must be between 20 and 500", st)
  else if mn ≥ mx then
    (errorResponse 400 "max_length must be greater than min_length", st)
  else if wordCount text < 30 then
    (errorResponse 400 "Text is too short to summarize. Please provide at least 30 words.", st)
  else if text.length > 5000 then
    (errorResponse 400 "Text is too long. Maximum 5000 characters allowed.", st)
  else
    match (get_summarizer st load).1 with
    | none =>
        (errorResponse 503 "Model not loaded. Please try again later.",
         (get_summarizer st load).2)
    | some m =>
        match m text mn mx with
        | .error e => (summarizeFailure debug e, (get_summarizer st load).2)
        | .ok summary =>
            (⟨200, [("success", JVal.bool true),
                    ("summary", JVal.str summary),
                    ("original_length", JVal.int (wordCount text)),
                    ("summary_length", JVal.int (wordCount summary)),
                    ("parameters", JVal.obj [("min_length", JVal.int mn),
                                             ("max_length", JVal.int mx)])]⟩,
             (get_summarizer st load).2)

/-- The POST /api/summarize handler (app.py lines 49-139).  Returns the
    response together with the new global summarizer state.  Exceptions
    raised while parsing the length fields are caught by the surrounding
    `except` block and become the 500 body, with the global state unchanged
    (the parse happens before `get_summarizer()` runs). -/
def summarize_text (debug : Bool) (st load : Option Model)
    (req : SummarizeRequest) : Response × Option Model :=
  if req.is_json = false then
    (errorResponse 400 "Content-Type must be application/json", st)
  else
    match req.text with
    | none => (errorResponse 400 "Text field is required and cannot be empty", st)
    | some tj =>
      if pyTrim (pyStr tj) = "" then
        (errorResponse 400 "Text field is required and cannot be empty", st)
      else
        match pyInt (req.min_length.getD (Json.int 25)) with
        | .error e => (summarizeFailure debug e, st)
        | .ok mn =>
          match pyInt (req.max_length.getD (Json.int 100)) with
          | .error e => (summarizeFailure debug e, st)
          | .ok mx => summarize_validated debug st load (pyTrim (pyStr tj)) mn mx

/-- The GET /health and /api/health handler (app.py lines 38-46).  Reads the
    global state without calling `get_summarizer`, so the state is returned
    unchanged. -/
def health_check (st : Option Model) : Response × Option Model :=
  (⟨200, [("status", JVal.str "healthy"),
          ("model_loaded", JVal.bool (isReady st))]⟩, st)

/-- The 404 handler (app.py lines 142-144). -/
def not_found : Response := ⟨404, [("error", JVal.str "Endpoint not found")]⟩

/-- The 500 handler (app.py lines 147-149). -/
def internal_error : Response := ⟨500, [("error", JVal.str "Internal server error")]⟩

/-! Concrete fixtures used by witnesses and counterexamples. -/

/-- A 30-word paragraph. -/
def longText : String := "one two three four five six seven eight nine ten eleven twelve thirteen fourteen fifteen sixteen seventeen eighteen nineteen twenty one two three four five six seven eight nine ten"

/-- A handle whose invocation always succeeds with a fixed summary. -/
def okModel : Model := fun _ _ _ => .ok "a concise summary of the text"

/-- A handle whose invocation always raises. -/
def failModel : Model := fun _ _ _ => .error "boom"

/-! Helper lemmas. -/

/-- Once the content-type, text and integer parses succeed, the handler is
    the post-parse pipeline on the trimmed coerced text. -/
theorem summarize_text_parse_ok
    (debug : Bool) (st load : Option Model) (req : SummarizeRequest)
    (tj : Json) (mn mx : Int)
    (hj : req.is_json = true)
    (ht : req.text = some tj)
    (hne : pyTrim (pyStr tj) ≠ "")
    (hmn : pyInt (req.min_length.getD (Json.int 25)) = .ok mn)
    (hmx : pyInt (req.max_length.getD (Json.int 100)) = .ok mx) :
    summarize_text debug st load req =
      summarize_validated debug st load (pyTrim (pyStr tj)) mn mx := by
  unfold summarize_text
  rw [hj, ht]
  simp only [hmn, hmx, if_neg hne]
  rw [if_neg (by decide : ¬(true = false))]

/-! Claim theorems. -/

/-- Claim C8: every GET request to /health or /api/health returns status 200
    with body `{status: "healthy", model_loaded: b}` where `b` is a boolean
    equal to the Model Provider's current readiness; the handler is a total
    function (never raises) and returns the state unchanged, so it never
    triggers model initialization. -/
theorem health_check_contract (st : Option Model) :
    health_check st =
      (⟨200, [("status", JVal.str "healthy"),
              ("model_loaded", JVal.bool (isReady st))]⟩, st) := rfl

/-- Claim C9: the lazy initializer never raises (it is a total function); on
    a construction failure (`load = none`) starting from an absent handle it
    stores `none` and returns it; and once a handle is present every call
    returns that same handle and leaves the state unchanged, so the global
    handle is never replaced or cleared. -/
theorem get_summarizer_contract :
    (∀ (load : Option Model), get_summarizer none load = (load, load)) ∧
    (∀ (m : Model) (load : Option Model),
      get_summarizer (some m) load = (some m, some m)) :=
  ⟨fun _ => rfl, fun _ _ => rfl⟩

/-- Claim C10: a `text` field that is not a JSON string is not rejected for
    its type: the handler behaves exactly as if the field had been the
    string `str(value)`, so every later validation step and the model
    invocation operate on the coerced string.  In particular a numeric text
    passes the emptiness check and reaches the word-count check. -/
theorem text_field_coerced_via_str :
    (∀ (debug : Bool) (st load : Option Model) (b : Bool) (j : Json)
        (mnf mxf : Option Json),
      summarize_text debug st load ⟨b, some j, mnf, mxf⟩ =
        summarize_text debug st load ⟨b, some (Json.str (pyStr j)), mnf, mxf⟩) ∧
    (summarize_text false none none ⟨true, some (Json.int 12345), none, none⟩ =
      (errorResponse 400 "Text is too short to summarize. Please provide at least 30 words.",
       none)) :=
  ⟨fun _ _ _ _ _ _ _ => rfl, rfl⟩

/-- Claim C3: when every validation step passes and the model invocation
    returns a summary string, the handler returns 200 with
    `summary_length` the whitespace word count of the summary,
    `original_length` the word count of the trimmed input text, and
    `parameters` echoing the effective `min_length`/`max_length` (the
    defaults 25 and 100 arise from `.getD` when the fields are absent). -/
theorem summarize_success_contract
    (debug : Bool) (st load : Option Model) (req : SummarizeRequest)
    (tj : Json) (mn mx : Int) (m : Model) (s : String)
    (hj : req.is_json = true)
    (ht : req.text = some tj)
    (hne : pyTrim (pyStr tj) ≠ "")
    (hmn : pyInt (req.min_length.getD (Json.int 25)) = .ok mn)
    (hmx : pyInt (req.max_length.getD (Json.int 100)) = .ok mx)
    (hmn1 : 10 ≤ mn) (hmn2 : mn ≤ 200)
    (hmx1 : 20 ≤ mx) (hmx2 : mx ≤ 500)
    (hlt : mn < mx)
    (hwc : 30 ≤ wordCount (pyTrim (pyStr tj)))
    (hcc : (pyTrim (pyStr tj)).length ≤ 5000)
    (hready : (get_summarizer st load).1 = some m)
    (hinv : m (pyTrim (pyStr tj)) mn mx = .ok s) :
    (summarize_text debug st load req).1 =
      ⟨200, [("success", JVal.bool true),
             ("summary", JVal.str s),
             ("original_length", JVal.int (wordCount (pyTrim (pyStr tj)))),
             ("summary_length", JVal.int (wordCount s)),
             ("parameters", JVal.obj [("min_length", JVal.int mn),
                                      ("max_length", JVal.int mx)])]⟩ := by
  rw [summarize_text_parse_ok debug st load req tj mn mx hj ht hne hmn hmx]
  unfold summarize_validated
  rw [if_neg (by omega), if_neg (by omega), if_neg (by omega),
      if_neg (by omega), if_neg (by omega)]
  simp only [hready, hinv]

/-- Witness for C3: a 30-word text with no length fields; defaults 25/100
    are echoed, `original_length` is 30 and `summary_length` is 6. -/
theorem summarize_success_contract_witness :
    (summarize_text false none (some okModel) ⟨true, some (Json.str longText), none, none⟩).1 =
      ⟨200, [("success", JVal.bool true),
             ("summary", JVal.str "a concise summary of the text"),
             ("original_length", JVal.int 30),
             ("summary_length", JVal.int 6),
             ("parameters", JVal.obj [("min_length", JVal.int 25),
                                      ("max_length", JVal.int 100)])]⟩ :=
  summarize_success_contract false none (some okModel)
    ⟨true, some (Json.str longText), none, none⟩ (Json.str longText) 25 100
    okModel "a concise summary of the text"
    rfl rfl (by decide) rfl rfl
    (by decide) (by decide) (by decide) (by decide) (by decide)
    (by decide) (by decide) rfl rfl

/-- Claim C4: when every validation step passes but the Model Provider is
    not ready (neither an existing handle nor a fresh construction yields
    one), the handler returns 503 with the exact message.  In that branch no
    handle exists, so the summarization function is never invoked: the
    result is this fixed response whatever the request text and parameters
    are. -/
theorem summarize_not_ready_503
    (debug : Bool) (st load : Option Model) (req : SummarizeRequest)
    (tj : Json) (mn mx : Int)
    (hj : req.is_json = true)
    (ht : req.text = some tj)
    (hne : pyTrim (pyStr tj) ≠ "")
    (hmn : pyInt (req.min_length.getD (Json.int 25)) = .ok mn)
    (hmx : pyInt (req.max_length.getD (Json.int 100)) = .ok mx)
    (hmn1 : 10 ≤ mn) (hmn2 : mn ≤ 200)
    (hmx1 : 20 ≤ mx) (hmx2 : mx ≤ 500)
    (hlt : mn < mx)
    (hwc : 30 ≤ wordCount (pyTrim (pyStr tj)))
    (hcc : (pyTrim (pyStr tj)).length ≤ 5000)
    (hready : (get_summarizer st load).1 = none) :
    summarize_text debug st load req =
      (errorResponse 503 "Model not loaded. Please try again later.",
       (get_summarizer st load).2) := by
  rw [summarize_text_parse_ok debug st load req tj mn mx hj ht hne hmn hmx]
  unfold summarize_validated
  rw [if_neg (by omega), if_neg (by omega), if_neg (by omega),
      if_neg (by omega), if_neg (by omega)]
  simp only [hready]

/-- Witness for C4: a passing request with explicit in-range parameters,
    no stored handle and a failing construction, yields the 503 response. -/
theorem summarize_not_ready_503_witness :
    summarize_text false none none
        ⟨true, some (Json.str longText), some (Json.int 30), some (Json.int 120)⟩ =
      (errorResponse 503 "Model not loaded. Please try again later.", none) :=
  summarize_not_ready_503 false none none
    ⟨true, some (Json.str longText), some (Json.int 30), some (Json.int 120)⟩
    (Json.str longText) 30 120
    rfl rfl (by decide) rfl rfl
    (by decide) (by decide) (by decide) (by decide) (by decide)
    (by decide) (by decide) rfl

/-- Claim C7: with valid JSON, non-empty text and valid length parameters,
    a trimmed text of fewer than 30 whitespace tokens yields 400 with the
    too-short message.  No hypothesis on the character count is needed: the
    word-count check runs before the 5000-character check. -/
theorem short_text_yields_400
    (debug : Bool) (st load : Option Model) (req : SummarizeRequest)
    (tj : Json) (mn mx : Int)
    (hj : req.is_json = true)
    (ht : req.text = some tj)
    (hne : pyTrim (pyStr tj) ≠ "")
    (hmn : pyInt (req.min_length.getD (Json.int 25)) = .ok mn)
    (hmx : pyInt (req.max_length.getD (Json.int 100)) = .ok mx)
    (hmn1 : 10 ≤ mn) (hmn2 : mn ≤ 200)
    (hmx1 : 20 ≤ mx) (hmx2 : mx ≤ 500)
    (hlt : mn < mx)
    (hwc : wordCount (pyTrim (pyStr tj)) < 30) :
    summarize_text debug st load req =
      (errorResponse 400 "Text is too short to summarize. Please provide at least 30 words.",
       st) := by
  rw [summarize_text_parse_ok debug st load req tj mn mx hj ht hne hmn hmx]
  unfold summarize_validated
  rw [if_neg (by omega), if_neg (by omega), if_neg (by omega), if_pos hwc]

/-- Witness for C7: a five-word text is rejected as too short. -/
theorem short_text_yields_400_witness :
    summarize_text false none none
        ⟨true, some (Json.str "just a few words here"), none, none⟩ =
      (errorResponse 400 "Text is too short to summarize. Please provide at least 30 words.",
       none) :=
  short_text_yields_400 false none none
    ⟨true, some (Json.str "just a few words here"), none, none⟩
    (Json.str "just a few words here") 25 100
    rfl rfl (by decide) rfl rfl
    (by decide) (by decide) (by decide) (by decide) (by decide)
    (by decide)

/-- Counterexample to C1 as stated: a valid-JSON request with non-empty text
    and `min_length = "abc"` does not get a 400 — `int("abc")` raises inside
    the handler's try block and the catch-all returns 500 with the generic
    message, not a message naming the violated rule. -/
theorem unparseable_min_length_yields_500_not_400 :
    (summarize_text false none none
        ⟨true, some (Json.str "hello world"), some (Json.str "abc"), none⟩).1.status = 500 ∧
    (summarize_text false none none
        ⟨true, some (Json.str "hello world"), some (Json.str "abc"), none⟩).1.status ≠ 400 :=
  ⟨rfl, by decide⟩

/-- Claim C1 amended: for every request passing the JSON and non-empty-text
    checks whose `min_length` fails to parse as an integer, or whose
    `min_length` parses but whose `max_length` fails to parse, the handler
    returns the catch-all 500 response (generic message, `details` equal to
    `str(e)` in debug mode and null otherwise), with the global state
    unchanged. -/
theorem unparseable_length_param_yields_500
    (debug : Bool) (st load : Option Model) (req : SummarizeRequest)
    (tj : Json) (e : String)
    (hj : req.is_json = true)
    (ht : req.text = some tj)
    (hne : pyTrim (pyStr tj) ≠ "")
    (he : pyInt (req.min_length.getD (Json.int 25)) = .error e ∨
          ((∃ mn, pyInt (req.min_length.getD (Json.int 25)) = .ok mn) ∧
           pyInt (req.max_length.getD (Json.int 100)) = .error e)) :
    summarize_text debug st load req = (summarizeFailure debug e, st) := by
  unfold summarize_text
  rw [hj, ht]
  rw [if_neg (by decide : ¬(true = false))]
  rcases he with he | ⟨⟨mn, hmn⟩, he⟩
  · simp only [if_neg hne, he]
  · simp only [if_neg hne, hmn, he]

/-- Witness for amended C1: the `min_length = "abc"` request produces the
    500 body with a null `details` field in non-debug mode. -/
theorem unparseable_length_param_yields_500_witness :
    summarize_text false none none
        ⟨true, some (Json.str "hello world"), some (Json.str "abc"), none⟩ =
      (summarizeFailure false "invalid literal for int() with base 10: 'abc'", none) :=
  unparseable_length_param_yields_500 false none none
    ⟨true, some (Json.str "hello world"), some (Json.str "abc"), none⟩
    (Json.str "hello world") "invalid literal for int() with base 10: 'abc'"
    rfl rfl (by decide) (Or.inl rfl)

/-- Counterexample to C5 as stated: `min_length = 300, max_length = 100`
    satisfies `min_length >= max_length` but the response message is the
    min_length range message, because the range check runs first. -/
theorem min_ge_max_message_differs :
    (300 : Int) ≥ 100 ∧
    (summarize_text false none none
        ⟨true, some (Json.str "hello"), some (Json.int 300), some (Json.int 100)⟩).1 =
      errorResponse 400 "min_length must be between 10 and 200" ∧
    "min_length must be between 10 and 200" ≠ "max_length must be greater than min_length" :=
  ⟨by decide, rfl, by decide⟩

/-- Claim C5 amended: whenever both parameters parse as integers and
    `min_length >= max_length`, the status is 400; and when both are
    additionally within their ranges the message is exactly
    "max_length must be greater than min_length" (otherwise the earlier
    range-check message is returned instead). -/
theorem min_ge_max_yields_400
    (debug : Bool) (st load : Option Model) (req : SummarizeRequest)
    (tj : Json) (mn mx : Int)
    (hj : req.is_json = true)
    (ht : req.text = some tj)
    (hne : pyTrim (pyStr tj) ≠ "")
    (hmn : pyInt (req.min_length.getD (Json.int 25)) = .ok mn)
    (hmx : pyInt (req.max_length.getD (Json.int 100)) = .ok mx)
    (hge : mn ≥ mx) :
    (summarize_text debug st load req).1.status = 400 ∧
    (10 ≤ mn → mn ≤ 200 → 20 ≤ mx → mx ≤ 500 →
      summarize_text debug st load req =
        (errorResponse 400 "max_length must be greater than min_length", st)) := by
  rw [summarize_text_parse_ok debug st load req tj mn mx hj ht hne hmn hmx]
  constructor
  · unfold summarize_validated
    by_cases h1 : mn < 10 ∨ mn > 200
    · rw [if_pos h1]
      rfl
    · rw [if_neg h1]
      by_cases h2 : mx < 20 ∨ mx > 500
      · rw [if_pos h2]
        rfl
      · rw [if_neg h2, if_pos hge]
        rfl
  · intro a b c d
    unfold summarize_validated
    rw [if_neg (by omega), if_neg (by omega), if_pos hge]

/-- Witness for amended C5: `min_length = 50, max_length = 40` (both in
    range) yields 400 "max_length must be greater than min_length". -/
theorem min_ge_max_yields_400_witness :
    summarize_text false none none
        ⟨true, some (Json.str "some words"), some (Json.int 50), some (Json.int 40)⟩ =
      (errorResponse 400 "max_length must be greater than min_length", none) :=
  (min_ge_max_yields_400 false none none
      ⟨true, some (Json.str "some words"), some (Json.int 50), some (Json.int 40)⟩
      (Json.str "some words") 50 40
      rfl rfl (by decide) rfl rfl (by decide)).2
    (by decide) (by decide) (by decide) (by decide)

/-- Counterexample to C6 as stated: with `min_length = 5` and
    `max_length = 600`, `max_length` is outside [20, 500] yet the response
    message is the min_length one — the min_length check runs first, so an
    out-of-range `max_length` does not yield its own message. -/
theorem max_out_of_range_message_masked :
    ((600 : Int) < 20 ∨ (600 : Int) > 500) ∧
    (summarize_text false none none
        ⟨true, some (Json.str "hello"), some (Json.int 5), some (Json.int 600)⟩).1 =
      errorResponse 400 "min_length must be between 10 and 200" ∧
    "min_length must be between 10 and 200" ≠ "max_length must be between 20 and 500" :=
  ⟨by decide, rfl, by decide⟩

/-- Claim C6 amended: for requests whose two length fields parse as
    integers (absent fields default to 25 and 100), the response is 400
    "min_length must be between 10 and 200" exactly when `min_length` is
    outside [10, 200] — so the boundary values 10 and 200 are accepted —
    and 400 "max_length must be between 20 and 500" exactly when
    `min_length` is within its range and `max_length` is outside [20, 500]
    — so the boundary values 20 and 500 are accepted. -/
theorem length_range_messages
    (debug : Bool) (st load : Option Model) (req : SummarizeRequest)
    (tj : Json) (mn mx : Int)
    (hj : req.is_json = true)
    (ht : req.text = some tj)
    (hne : pyTrim (pyStr tj) ≠ "")
    (hmn : pyInt (req.min_length.getD (Json.int 25)) = .ok mn)
    (hmx : pyInt (req.max_length.getD (Json.int 100)) = .ok mx) :
    ((summarize_text debug st load req).1 =
        errorResponse 400 "min_length must be between 10 and 200" ↔
      (mn < 10 ∨ mn > 200)) ∧
    ((summarize_text debug st load req).1 =
        errorResponse 400 "max_length must be between 20 and 500" ↔
      ((10 ≤ mn ∧ mn ≤ 200) ∧ (mx < 20 ∨ mx > 500))) := by
  rw [summarize_text_parse_ok debug st load req tj mn mx hj ht hne hmn hmx]
  unfold summarize_validated
  constructor
  · constructor
    · intro h
      by_contra hc
      rw [if_neg hc] at h
      repeat' split at h
      all_goals simp [errorResponse, summarizeFailure] at h
    · intro h
      rw [if_pos h]
  · constructor
    · intro h
      by_cases hc1 : mn < 10 ∨ mn > 200
      · rw [if_pos hc1] at h
        simp [errorResponse] at h
      · rw [if_neg hc1] at h
        by_cases hc2 : mx < 20 ∨ mx > 500
        · exact ⟨⟨by omega, by omega⟩, hc2⟩
        · rw [if_neg hc2] at h
          exfalso
          repeat' split at h
          all_goals simp [errorResponse, summarizeFailure] at h
    · intro h
      rw [if_neg (by omega : ¬(mn < 10 ∨ mn > 200)), if_pos h.2]

/-- Witness for amended C6: `min_length = 9` is out of range, so the min
    range message is returned (here with an in-range `max_length = 100`). -/
theorem length_range_messages_witness :
    (summarize_text false none none
        ⟨true, some (Json.str "word"), some (Json.int 9), some (Json.int 100)⟩).1 =
      errorResponse 400 "min_length must be between 10 and 200" :=
  ((length_range_messages false none none
      ⟨true, some (Json.str "word"), some (Json.int 9), some (Json.int 100)⟩
      (Json.str "word") 9 100
      rfl rfl (by decide) rfl rfl).1).mpr (by decide)

/-- Counterexample to C2 as stated: in non-debug mode the summarize 500
    body still contains a "details" key — it is mapped to null, not
    omitted.  The claim that no "details" key is present in any error body
    in non-debug mode is therefore false. -/
theorem nondebug_error_body_contains_details_key :
    (summarize_text false none (some failModel)
        ⟨true, some (Json.str longText), none, none⟩).1.status = 500 ∧
    lookupKey "details"
        (summarize_text false none (some failModel)
          ⟨true, some (Json.str longText), none, none⟩).1.body =
      some JVal.null :=
  ⟨rfl, rfl⟩

/-- Claim C2 amended: every error response (status other than 200) of the
    summarize handler carries an "error" key mapped to a string; a
    "details" key is present exactly on the summarize 500 path, where it is
    mapped to the exception text when debug mode is on and to null
    otherwise; the 404 and 500 error handlers carry an "error" string and
    no "details" key. -/
theorem error_body_shape
    (debug : Bool) (st load : Option Model) (req : SummarizeRequest) :
    ((summarize_text debug st load req).1.status ≠ 200 →
      ∃ s, lookupKey "error" (summarize_text debug st load req).1.body =
        some (JVal.str s)) ∧
    (hasKey "details" (summarize_text debug st load req).1.body = true ↔
      (summarize_text debug st load req).1.status = 500) ∧
    ((summarize_text debug st load req).1.status = 500 →
      ∃ d, lookupKey "details" (summarize_text debug st load req).1.body =
        some (if debug then JVal.str d else JVal.null)) ∧
    (∃ s, lookupKey "error" not_found.body = some (JVal.str s)) ∧
    hasKey "details" not_found.body = false ∧
    (∃ s, lookupKey "error" internal_error.body = some (JVal.str s)) ∧
    hasKey "details" internal_error.body = false := by
  refine ⟨?_, ?_, ?_, ⟨"Endpoint not found", rfl⟩, rfl,
          ⟨"Internal server error", rfl⟩, rfl⟩
  all_goals unfold summarize_text summarize_validated
  all_goals repeat' split
  all_goals simp_all [errorResponse, summarizeFailure, hasKey, lookupKey]

/-- Witness for amended C2: a rejected non-JSON request has status 400 and
    an "error" string in its body. -/
theorem error_body_shape_witness :
    ∃ s, lookupKey "error"
        (summarize_text true none none ⟨false, none, none, none⟩).1.body =
      some (JVal.str s) :=
  (error_body_shape true none none ⟨false, none, none, none⟩).1 (by decide)

end AISummarizer
